import Mathlib

/-!
Shallow embedding of the JSON2MAF variant-filtering core (Rust) in Lean 4.

Conventions of the embedding:
* Rust `f64` values are modelled as `ℚ` (exact rational arithmetic); every
  rational constant is written with `mkRat` so that concrete values reduce
  inside the kernel.
* Rust `i32` is modelled as `Int`, `usize` as `Nat`.
* Rust `Option<T>` is `Option T`; Rust `String` is `String`.
* `HashMap<String, f64>` is modelled as an association list
  `List (String × ℚ)` in insertion order (the map is only ever queried with
  `contains_key` and iterated for display, so the representation is faithful
  for every property considered here).
* `str::to_lowercase` is modelled character-wise (`Char.toLower`), which
  agrees with Rust on the ASCII data the program manipulates; `str::contains`
  and `str::find` are modelled over the character list (char indices agree
  with Rust's byte indices on ASCII input).
* Rust's stable `sort_by` is modelled by a stable insertion sort
  (`sortEntries`): an element is inserted before the first element that does
  not compare strictly below it, which preserves the original order of
  entries that compare equal, exactly as Rust's stable sort does.
-/

/-! ## String helpers (models of `str` methods used by the source) -/

/-- Character-wise lowercase, modelling Rust `str::to_lowercase` on ASCII. -/
def strToLower (s : String) : String := String.mk (s.data.map Char.toLower)

/-- Does `pat` occur as a contiguous sublist of `s`? -/
def containsSub : List Char → List Char → Bool
  | [], pat => pat.isEmpty
  | c :: rest, pat => pat.isPrefixOf (c :: rest) || containsSub rest pat

/-- Model of Rust `str::contains` (substring containment). -/
def strContains (s pat : String) : Bool := containsSub s.data pat.data

/-- Index (in characters) of the first occurrence of `pat` in `s`,
modelling Rust `str::find` (byte indices coincide on ASCII input). -/
def findSubIdx (pat : List Char) : List Char → Option Nat
  | [] => if pat.isPrefixOf ([] : List Char) then some 0 else none
  | c :: rest =>
    if pat.isPrefixOf (c :: rest) then some 0
    else (findSubIdx pat rest).map (fun n => n + 1)

/-- Model of Rust `str::find` returning a character index. -/
def strFind (s pat : String) : Option Nat := findSubIdx pat.data s.data

/-- Drop the first `n` characters of a string, modelling Rust slicing
`&s[n..]` on ASCII input. -/
def strDrop (s : String) (n : Nat) : String := String.mk (s.data.drop n)

/-- One left-to-right pass of non-overlapping replacement, fuelled by the
length of the subject list. -/
def replaceFuel (pat rep : List Char) : Nat → List Char → List Char
  | 0, s => s
  | fuel + 1, s =>
    match s with
    | [] => []
    | c :: rest =>
      if pat ≠ [] && pat.isPrefixOf (c :: rest) then
        rep ++ replaceFuel pat rep fuel ((c :: rest).drop pat.length)
      else
        c :: replaceFuel pat rep fuel rest

/-- Model of Rust `str::replace`: replace every non-overlapping occurrence of
`pat` by `rep`, scanning left to right. -/
def strReplace (s pat rep : String) : String :=
  String.mk (replaceFuel pat.data rep.data s.data.length s.data)

/-- Pad a decimal digit string with leading zeros up to `len` characters. -/
def padZeros (s : String) (len : Nat) : String :=
  String.mk (List.replicate (len - s.length) '0') ++ s

/-- Fixed-point decimal rendering of a rational with `prec` digits after the
point. Approximates Rust's `{:.prec$}` float formatting (which rounds the
underlying binary value); used only to build human-readable justification
strings, which no claim inspects. -/
def fmtFixed (prec : Nat) (q : ℚ) : String :=
  let scaled : Int := Int.floor (q * ((10 : ℚ) ^ prec) + mkRat 1 2)
  let sign : String := if scaled < 0 then "-" else ""
  let m : Nat := scaled.natAbs
  let ip : Nat := m / 10 ^ prec
  let fp : Nat := m % 10 ^ prec
  if prec = 0 then sign ++ toString ip
  else sign ++ toString ip ++ "." ++ padZeros (toString fp) prec

/-- Shortest-decimal rendering of a rational (fuelled search for the least
number of decimal places that represents the value exactly). Approximates
Rust's `{}` float display; used only inside justification strings. -/
def fmtDisplayAux (q : ℚ) : Nat → Nat → String
  | 0, prec => fmtFixed prec q
  | fuel + 1, prec =>
    if (q * ((10 : ℚ) ^ prec)).den = 1 then fmtFixed prec q
    else fmtDisplayAux q fuel (prec + 1)

/-- Approximate model of Rust's `{}` display of an `f64`. -/
def fmtDisplay (q : ℚ) : String := fmtDisplayAux q 17 0

/-! ## Data model (`src/types.rs`) -/

/-- `FilterConfig` (src/types.rs). -/
structure FilterConfig where
  min_total_depth : Int
  min_variant_frequency : ℚ
  max_eas_af : ℚ
  min_revel_score : ℚ
  min_primate_ai_score : ℚ
  min_dann_score : ℚ
  exclude_benign : Bool
deriving DecidableEq, Repr

/-- `FilterConfig::default` (src/types.rs): 30, 0.03, 0.01, 0.75, 0.8, 0.96,
false. -/
def FilterConfig.default : FilterConfig :=
  { min_total_depth := 30
    min_variant_frequency := mkRat 3 100
    max_eas_af := mkRat 1 100
    min_revel_score := mkRat 75 100
    min_primate_ai_score := mkRat 8 10
    min_dann_score := mkRat 96 100
    exclude_benign := false }

/-- `ClinVarEntry` (src/types.rs). -/
structure ClinVarEntry where
  id : Option String
  allele_id : Option String
  clinical_significance : List String
  review_status : Option String
  phenotypes : List String
  last_evaluated : Option String
deriving DecidableEq, Repr

/-- `TranscriptAnnotation` (src/types.rs). -/
structure TranscriptAnnotation where
  id : Option String
  source : Option String
  hgnc : Option String
  consequence : List String
  impact : Option String
  amino_acids : Option String
  cdna_pos : Option String
  cds_pos : Option String
  exons : Option String
  codons : Option String
  protein_pos : Option String
  hgvsc : Option String
  hgvsp : Option String
  is_canonical : Option Bool
  is_mane_select : Option Bool
deriving DecidableEq, Repr

/-- `PopulationFrequency` (src/types.rs). -/
structure PopulationFrequency where
  source : String
  all_af : Option ℚ
  eas_af : Option ℚ
  afr_af : Option ℚ
  amr_af : Option ℚ
  eur_af : Option ℚ
deriving DecidableEq, Repr

/-- `CosmicEntry` (src/types.rs). -/
structure CosmicEntry where
  id : Option String
  gene : Option String
  mutation_type : Option String
  count : Option Int
deriving DecidableEq, Repr

/-- `VariantPosition` (src/types.rs). -/
structure VariantPosition where
  chromosome : String
  start : Int
  end_pos : Int
  reference_allele : String
  alternate_allele : String
  variant_type : String
  filters : List String
  total_depth : Option Int
  variant_frequencies : Option (List ℚ)
  transcripts : List TranscriptAnnotation
  clinvar : List ClinVarEntry
  cosmic : List CosmicEntry
  population_frequencies : List PopulationFrequency
  primate_ai_3d : Option ℚ
  primate_ai : Option ℚ
  dann_score : Option ℚ
  revel_score : Option ℚ
  dbsnp_ids : List String
deriving DecidableEq, Repr

/-- `QualityFilterResult` (src/types.rs). -/
structure QualityFilterResult where
  passes_quality : Bool
  failure_reason : Option String
  depth : Option Int
  variant_frequency : Option ℚ
  eas_allele_frequency : Option ℚ
deriving DecidableEq, Repr

/-- `ClinVarAssessment` (src/types.rs). -/
structure ClinVarAssessment where
  is_pathogenic : Bool
  is_likely_pathogenic : Bool
  is_benign : Bool
  is_likely_benign : Bool
  selected_entry : Option ClinVarEntry
  confidence_level : String
  reason : String
deriving DecidableEq, Repr

/-- `PredictiveAssessment` (src/types.rs); `contributing_scores` is the
`HashMap<String, f64>` modelled as an association list. -/
structure PredictiveAssessment where
  suggests_pathogenic : Bool
  contributing_scores : List (String × ℚ)
  confidence : ℚ
  support_count : Nat
  has_primate_ai_support : Bool
deriving DecidableEq, Repr

/-- `FilterDecision` (src/types.rs). -/
structure FilterDecision where
  should_include : Bool
  pathogenicity_class : String
  primary_evidence : String
  justification : String
deriving DecidableEq, Repr

/-- `FilterStats` (src/types.rs). -/
structure FilterStats where
  passed_quality : Nat
  failed_depth : Nat
  failed_vaf : Nat
  failed_af : Nat
  clinvar_pathogenic : Nat
  clinvar_likely : Nat
  predictive_likely : Nat
  primate_ai_only : Nat
  multi_score : Nat
  excluded_benign : Nat
  included : Nat
  excluded : Nat
deriving DecidableEq, Repr

/-- `FilterStats::default` (derived `Default`): every counter zero. -/
def FilterStats.default : FilterStats :=
  { passed_quality := 0, failed_depth := 0, failed_vaf := 0, failed_af := 0
    clinvar_pathogenic := 0, clinvar_likely := 0, predictive_likely := 0
    primate_ai_only := 0, multi_score := 0, excluded_benign := 0
    included := 0, excluded := 0 }

/-- `FilterStats::merge` (src/types.rs): field-wise addition. The Rust method
mutates `self`; it is modelled as the function returning the merged value. -/
def FilterStats.merge (a b : FilterStats) : FilterStats :=
  { passed_quality := a.passed_quality + b.passed_quality
    failed_depth := a.failed_depth + b.failed_depth
    failed_vaf := a.failed_vaf + b.failed_vaf
    failed_af := a.failed_af + b.failed_af
    clinvar_pathogenic := a.clinvar_pathogenic + b.clinvar_pathogenic
    clinvar_likely := a.clinvar_likely + b.clinvar_likely
    predictive_likely := a.predictive_likely + b.predictive_likely
    primate_ai_only := a.primate_ai_only + b.primate_ai_only
    multi_score := a.multi_score + b.multi_score
    excluded_benign := a.excluded_benign + b.excluded_benign
    included := a.included + b.included
    excluded := a.excluded + b.excluded }

/-! ## Quality filters (`src/filters/quality.rs`) -/

/-- `get_variant_frequency` (src/filters/quality.rs): first entry of the
sample's variant-frequency vector. -/
def get_variant_frequency (v : VariantPosition) : Option ℚ :=
  v.variant_frequencies.bind (fun vf => vf.head?)

/-- `check_sequencing_quality` (src/filters/quality.rs). `None` is produced
by the `?` operator when depth or VAF is absent. -/
def check_sequencing_quality (v : VariantPosition) (config : FilterConfig) :
    Option (Bool × String) := do
  let depth ← v.total_depth
  if depth < config.min_total_depth then
    return (false, "Low sequencing depth (" ++ toString depth ++ " < "
      ++ toString config.min_total_depth ++ ")")
  else
    let vaf ← get_variant_frequency v
    if vaf < config.min_variant_frequency then
      return (false, "Low variant frequency (" ++ fmtFixed 4 vaf ++ " < "
        ++ fmtDisplay config.min_variant_frequency ++ ")")
    else
      return (true, "")

/-- `extract_gnomad_exome_eas_af` (src/filters/quality.rs). -/
def extract_gnomad_exome_eas_af (v : VariantPosition) : Option ℚ :=
  (v.population_frequencies.find? (fun pf => pf.source == "gnomad-exome")).bind
    (fun pf => pf.eas_af)

/-- `extract_onekg_eas_af` (src/filters/quality.rs). -/
def extract_onekg_eas_af (v : VariantPosition) : Option ℚ :=
  (v.population_frequencies.find? (fun pf => pf.source == "oneKg")).bind
    (fun pf => pf.eas_af)

/-- `check_population_frequency` (src/filters/quality.rs): gnomAD-exome first,
then 1000G, pass when neither has data. -/
def check_population_frequency (v : VariantPosition) (config : FilterConfig) :
    Bool × Option String × Option ℚ :=
  match extract_gnomad_exome_eas_af v with
  | some gnomad_af =>
    if gnomad_af > config.max_eas_af then
      (false, some ("High East Asian AF in gnomAD-exome (" ++ fmtFixed 4 gnomad_af
        ++ " > " ++ fmtDisplay config.max_eas_af ++ ")"), some gnomad_af)
    else (true, none, some gnomad_af)
  | none =>
    match extract_onekg_eas_af v with
    | some onekg_af =>
      if onekg_af > config.max_eas_af then
        (false, some ("High East Asian AF in 1000G (" ++ fmtFixed 4 onekg_af
          ++ " > " ++ fmtDisplay config.max_eas_af ++ ")"), some onekg_af)
      else (true, none, some onekg_af)
    | none => (true, none, none)

/-- `apply_quality_filters` (src/filters/quality.rs). -/
def apply_quality_filters (v : VariantPosition) (config : FilterConfig) :
    QualityFilterResult :=
  if ¬(v.filters.length = 1 ∧ v.filters.head? = some "PASS") then
    { passes_quality := false
      failure_reason := some ("Failed VCF filters: ["
        ++ String.intercalate ", " v.filters ++ "]")
      depth := v.total_depth
      variant_frequency := get_variant_frequency v
      eas_allele_frequency := none }
  else
    match check_sequencing_quality v config with
    | some (false, reason) =>
      { passes_quality := false
        failure_reason := some reason
        depth := v.total_depth
        variant_frequency := get_variant_frequency v
        eas_allele_frequency := none }
    | _ =>
      let popRes := check_population_frequency v config
      if ¬popRes.1 then
        { passes_quality := false
          failure_reason := popRes.2.1
          depth := v.total_depth
          variant_frequency := get_variant_frequency v
          eas_allele_frequency := popRes.2.2 }
      else
        { passes_quality := true
          failure_reason := none
          depth := v.total_depth
          variant_frequency := get_variant_frequency v
          eas_allele_frequency := popRes.2.2 }

/-! ## Predictive scores (`src/filters/predictive.rs`) -/

/-- `get_primate_ai_score` (src/filters/predictive.rs): PrimateAI-3D takes
priority over the sequence-based PrimateAI score. -/
def get_primate_ai_score (v : VariantPosition) : Option ℚ :=
  match v.primate_ai_3d with
  | some s => some s
  | none => v.primate_ai

/-- `get_dann_score` (src/filters/predictive.rs). -/
def get_dann_score (v : VariantPosition) : Option ℚ := v.dann_score

/-- `get_revel_score` (src/filters/predictive.rs). -/
def get_revel_score (v : VariantPosition) : Option ℚ := v.revel_score

/-- `is_in_cosmic` (src/filters/predictive.rs). -/
def is_in_cosmic (v : VariantPosition) : Bool := !v.cosmic.isEmpty

/-- Model of `HashMap::contains_key` on the association-list representation. -/
def containsKey (m : List (String × ℚ)) (k : String) : Bool :=
  m.any (fun kv => kv.1 == k)

/-- `calculate_confidence` (src/filters/predictive.rs). -/
def calculate_confidence (_contributing : List (String × ℚ))
    (has_primate_ai : Bool) (support_count : Nat) : ℚ :=
  if support_count = 0 then 0
  else
    let base : ℚ := if has_primate_ai then mkRat 7 10 else mkRat 1 2
    let confidence : ℚ := base + ((support_count - 1 : Nat) : ℚ) * mkRat 1 10
    min confidence 1

/-- The PrimateAI block of `assess_predictive_scores`: check the primary
score against its threshold and, on success, record the contribution and
bump the support count (the `contributing.insert` / `support_count += 1`
mutations, as a state transformer on the accumulator pair). -/
def primateStep (v : VariantPosition) (config : FilterConfig)
    (acc : List (String × ℚ) × Nat) : List (String × ℚ) × Nat :=
  match get_primate_ai_score v with
  | some primate_ai_3d =>
    if primate_ai_3d ≥ config.min_primate_ai_score then
      (acc.1 ++ [("PrimateAI-3D", primate_ai_3d)], acc.2 + 1)
    else acc
  | none => acc

/-- The REVEL block of `assess_predictive_scores`. -/
def revelStep (v : VariantPosition) (config : FilterConfig)
    (acc : List (String × ℚ) × Nat) : List (String × ℚ) × Nat :=
  match get_revel_score v with
  | some revel =>
    if revel ≥ config.min_revel_score then
      (acc.1 ++ [("REVEL", revel)], acc.2 + 1)
    else acc
  | none => acc

/-- The DANN block of `assess_predictive_scores`. -/
def dannStep (v : VariantPosition) (config : FilterConfig)
    (acc : List (String × ℚ) × Nat) : List (String × ℚ) × Nat :=
  match get_dann_score v with
  | some dann =>
    if dann ≥ config.min_dann_score then
      (acc.1 ++ [("DANN", dann)], acc.2 + 1)
    else acc
  | none => acc

/-- The COSMIC block of `assess_predictive_scores` (presence counts as
positive evidence with score 1.0). -/
def cosmicStep (v : VariantPosition)
    (acc : List (String × ℚ) × Nat) : List (String × ℚ) × Nat :=
  if is_in_cosmic v then (acc.1 ++ [("COSMIC", 1)], acc.2 + 1) else acc

/-- `assess_predictive_scores` (src/filters/predictive.rs): run the four
signal blocks in source order on the empty accumulator, then fuse. -/
def assess_predictive_scores (v : VariantPosition) (config : FilterConfig) :
    PredictiveAssessment :=
  let acc :=
    cosmicStep v (dannStep v config (revelStep v config
      (primateStep v config ([], 0))))
  let has_primate_ai_3d : Bool := containsKey acc.1 "PrimateAI-3D"
  let suggests_pathogenic : Bool := has_primate_ai_3d || decide (acc.2 ≥ 2)
  let confidence : ℚ := calculate_confidence acc.1 has_primate_ai_3d acc.2
  { suggests_pathogenic := suggests_pathogenic
    contributing_scores := acc.1
    confidence := confidence
    support_count := acc.2
    has_primate_ai_support := has_primate_ai_3d }

/-- Does the primary (PrimateAI) signal pass its threshold? Derived predicate
used to state claims about `assess_predictive_scores`. -/
def primaryPasses (v : VariantPosition) (config : FilterConfig) : Bool :=
  match get_primate_ai_score v with
  | some s => decide (s ≥ config.min_primate_ai_score)
  | none => false

/-- Does the REVEL signal pass its threshold? -/
def revelPasses (v : VariantPosition) (config : FilterConfig) : Bool :=
  match get_revel_score v with
  | some s => decide (s ≥ config.min_revel_score)
  | none => false

/-- Does the DANN signal pass its threshold? -/
def dannPasses (v : VariantPosition) (config : FilterConfig) : Bool :=
  match get_dann_score v with
  | some s => decide (s ≥ config.min_dann_score)
  | none => false

/-- Number of passing non-primary signals (REVEL, DANN, COSMIC presence). -/
def nonPrimaryCount (v : VariantPosition) (config : FilterConfig) : Nat :=
  (if revelPasses v config then 1 else 0)
    + (if dannPasses v config then 1 else 0)
    + (if is_in_cosmic v then 1 else 0)

/-- Total number of passing signals among the four. -/
def supportCount (v : VariantPosition) (config : FilterConfig) : Nat :=
  (if primaryPasses v config then 1 else 0) + nonPrimaryCount v config

/-! ## Decision fusion (`src/filters/decision.rs`) -/

/-- `make_filter_decision_with_config` (src/filters/decision.rs): strict
priority order, first matching rule wins. -/
def make_filter_decision_with_config (_variant : VariantPosition)
    (clinvar_assessment : ClinVarAssessment)
    (predictive_assessment : PredictiveAssessment)
    (exclude_benign : Bool) : FilterDecision :=
  if clinvar_assessment.is_pathogenic then
    { should_include := true
      pathogenicity_class := "Pathogenic"
      primary_evidence := "ClinVar"
      justification := "ClinVar pathogenic variant (confidence: "
        ++ clinvar_assessment.confidence_level ++ ")" }
  else if clinvar_assessment.is_likely_pathogenic then
    { should_include := true
      pathogenicity_class := "Likely pathogenic"
      primary_evidence := "ClinVar"
      justification := "ClinVar likely pathogenic variant (confidence: "
        ++ clinvar_assessment.confidence_level ++ ")" }
  else if exclude_benign
      && (clinvar_assessment.is_benign || clinvar_assessment.is_likely_benign) then
    let benign_class : String :=
      if clinvar_assessment.is_benign then "Benign" else "Likely benign"
    { should_include := false
      pathogenicity_class := "Excluded (Benign)"
      primary_evidence := "ClinVar"
      justification := "ClinVar " ++ benign_class ++ " variant (confidence: "
        ++ clinvar_assessment.confidence_level ++ ")" }
  else if predictive_assessment.suggests_pathogenic then
    let score_names : List String :=
      predictive_assessment.contributing_scores.map (fun kv => kv.1)
    { should_include := true
      pathogenicity_class := "Likely pathogenic"
      primary_evidence := "Predictive"
      justification := "Supported by predictive scores: "
        ++ String.intercalate ", " score_names ++ " (confidence: "
        ++ fmtFixed 2 predictive_assessment.confidence ++ ")" }
  else
    { should_include := false
      pathogenicity_class := "Excluded"
      primary_evidence := "None"
      justification := "Insufficient evidence for pathogenicity" }

/-- `make_filter_decision` (src/filters/decision.rs). -/
def make_filter_decision (variant : VariantPosition)
    (clinvar_assessment : ClinVarAssessment)
    (predictive_assessment : PredictiveAssessment) : FilterDecision :=
  make_filter_decision_with_config variant clinvar_assessment
    predictive_assessment false

/-! ## ClinVar conflict resolution (`src/filters/clinvar.rs`) -/

/-- `get_review_status_priority` (src/filters/clinvar.rs): substring tests on
the lowercased review status, tier 1 (strongest) to 8 (unknown). -/
def get_review_status_priority (status : String) : Int :=
  let status_lower := strToLower status
  if strContains status_lower "practice guideline" then 1
  else if strContains status_lower "reviewed by expert panel" then 2
  else if strContains status_lower "multiple submitters"
      && strContains status_lower "no conflict" then 3
  else if strContains status_lower "conflicting" then 4
  else if strContains status_lower "single submitter" then 5
  else if strContains status_lower "no assertion criteria provided" then 6
  else if strContains status_lower "no assertion provided" then 7
  else 8

/-- `cancer_keywords` array inside `is_cancer_related`. -/
def cancer_keywords : List String :=
  ["cancer", "carcinoma", "tumor", "tumour", "malignant", "neoplasm",
   "lymphoma", "leukemia", "leukaemia", "sarcoma", "melanoma", "glioma",
   "blastoma", "myeloma", "adenocarcinoma"]

/-- `is_cancer_related` (src/filters/clinvar.rs). -/
def is_cancer_related (diseases : List String) : Bool :=
  diseases.any (fun disease =>
    cancer_keywords.any (fun keyword => strContains (strToLower disease) keyword))

/-- `is_pathogenic_entry` (src/filters/clinvar.rs). -/
def is_pathogenic_entry (entry : ClinVarEntry) : Bool :=
  let sig_lower := strToLower (String.intercalate ", " entry.clinical_significance)
  strContains sig_lower "pathogenic"
    && !strContains sig_lower "benign"
    && !strContains sig_lower "uncertain"

/-- `is_benign_entry` (src/filters/clinvar.rs). -/
def is_benign_entry (entry : ClinVarEntry) : Bool :=
  let sig_lower := strToLower (String.intercalate ", " entry.clinical_significance)
  strContains sig_lower "benign"
    && !strContains sig_lower "pathogenic"
    && !strContains sig_lower "uncertain"

/-- Model of `i32::cmp`. -/
def intCmp (a b : Int) : Ordering :=
  if a < b then Ordering.lt else if b < a then Ordering.gt else Ordering.eq

/-- Model of `bool::cmp` (`false < true`). -/
def boolCmp (a b : Bool) : Ordering :=
  match a, b with
  | false, false => Ordering.eq
  | false, true => Ordering.lt
  | true, false => Ordering.gt
  | true, true => Ordering.eq

/-- Byte-lexicographic comparison of character lists; UTF-8 byte order on
Rust `&str` coincides with code-point order, which this models. -/
def charListCmp : List Char → List Char → Ordering
  | [], [] => Ordering.eq
  | [], _ :: _ => Ordering.lt
  | _ :: _, [] => Ordering.gt
  | a :: as, b :: bs =>
    match intCmp a.toNat b.toNat with
    | Ordering.eq => charListCmp as bs
    | o => o

/-- Model of `str::cmp`. -/
def strCmp (a b : String) : Ordering := charListCmp a.data b.data

/-- The review-status tier of an entry, as computed inline by the sort
comparator (`entry.review_status.as_deref().unwrap_or("")`). -/
def entry_priority (e : ClinVarEntry) : Int :=
  get_review_status_priority (e.review_status.getD "")

/-- The comparator closure inside `resolve_conflicting_entries`
(src/filters/clinvar.rs): review-status tier ascending, then cancer-related
first, then newer `last_evaluated` first. -/
def cmp_entries (a b : ClinVarEntry) : Ordering :=
  let pa := entry_priority a
  let pb := entry_priority b
  if pa ≠ pb then intCmp pa pb
  else
    let ca := is_cancer_related a.phenotypes
    let cb := is_cancer_related b.phenotypes
    if ca ≠ cb then boolCmp cb ca
    else strCmp (b.last_evaluated.getD "") (a.last_evaluated.getD "")

/-- Stable insertion of `a` into `l`: `a` is placed before the first element
it does not compare strictly above. -/
def orderedInsertE (a : ClinVarEntry) : List ClinVarEntry → List ClinVarEntry
  | [] => [a]
  | b :: l =>
    if cmp_entries a b ≠ Ordering.gt then a :: b :: l else b :: orderedInsertE a l

/-- Model of Rust's stable `sort_by` with the `cmp_entries` comparator, as a
stable insertion sort (identical output to any stable sort under this
comparator, which is a lawful total preorder). -/
def sortEntries (l : List ClinVarEntry) : List ClinVarEntry :=
  l.foldr orderedInsertE []

/-- `resolve_conflicting_entries` (src/filters/clinvar.rs): single entry is
returned as-is, otherwise sort by the comparator and take the first. The Rust
function indexes `sorted[0]` (its callers guarantee non-emptiness); the empty
case is modelled by `Option`. -/
def resolve_conflicting_entries (entries : List ClinVarEntry) :
    Option ClinVarEntry :=
  if entries.length = 1 then entries.head?
  else (sortEntries entries).head?

/-- `get_confidence_level` (src/filters/clinvar.rs). -/
def get_confidence_level (review_status : String) : String :=
  let priority := get_review_status_priority review_status
  if priority ≤ 2 then "high" else if priority ≤ 4 then "medium" else "low"

/-! ## Converter (`src/converter.rs`) -/

/-- The per-term rule `match` inside the loop of `map_variant_classification`
(src/converter.rs): the ordered substring guards on the lowercased term; the
source's `continue` arm is the `none` case. -/
def termClassification (consequence : String) : Option String :=
  let s := strToLower consequence
  if strContains s "missense" then some "Missense_Mutation"
  else if strContains s "nonsense" || strContains s "stop_gained" then
    some "Nonsense_Mutation"
  else if strContains s "frameshift" then some "Frame_Shift_Del"
  else if strContains s "splice_acceptor" || strContains s "splice_donor" then
    some "Splice_Site"
  else if strContains s "inframe_deletion" then some "In_Frame_Del"
  else if strContains s "inframe_insertion" then some "In_Frame_Ins"
  else if strContains s "start_lost" then some "Translation_Start_Site"
  else if strContains s "stop_lost" then some "Nonstop_Mutation"
  else if strContains s "synonymous" then some "Silent"
  else if strContains s "5_prime_utr" then some "5'UTR"
  else if strContains s "3_prime_utr" then some "3'UTR"
  else if strContains s "intron" then some "Intron"
  else none

/-- `map_variant_classification` (src/converter.rs): iterate the consequence
terms in order; the first term whose rule `match` produces a label is
returned (`return classification`), a `continue` moves to the next term, and
the loop falling through yields the empty string. -/
def map_variant_classification : List String → String
  | [] => ""
  | consequence :: rest =>
    match termClassification consequence with
    | some classification => classification
    | none => map_variant_classification rest

/-- The replacement table of `shorten_hgvsp` (src/converter.rs), in source
order: the twenty standard residues, then `Ter`. -/
def aminoAcidReplacements : List (String × String) :=
  [("Ala", "A"), ("Arg", "R"), ("Asn", "N"), ("Asp", "D"), ("Cys", "C"),
   ("Gln", "Q"), ("Glu", "E"), ("Gly", "G"), ("His", "H"), ("Ile", "I"),
   ("Leu", "L"), ("Lys", "K"), ("Met", "M"), ("Phe", "F"), ("Pro", "P"),
   ("Ser", "S"), ("Thr", "T"), ("Trp", "W"), ("Tyr", "Y"), ("Val", "V"),
   ("Ter", "*")]

/-- `shorten_hgvsp` (src/converter.rs): the chained `replace` calls, applied
left to right. -/
def shorten_hgvsp (hgvsp : String) : String :=
  aminoAcidReplacements.foldl (fun s pr => strReplace s pr.1 pr.2) hgvsp

/-- `extract_hgvs_notation` (src/converter.rs): full cDNA and protein HGVS
strings plus the shortened protein form (accession prefix stripped at the
first `:p.`, then residue codes shortened). -/
def extract_hgvs_notation (transcript : Option TranscriptAnnotation) :
    String × String × String :=
  match transcript with
  | some t =>
    let hgvsc := t.hgvsc.getD ""
    let hgvsp := t.hgvsp.getD ""
    let hgvsp_short :=
      match t.hgvsp with
      | some hgvsp_str =>
        match strFind hgvsp_str ":p." with
        | some pos => shorten_hgvsp (strDrop hgvsp_str (pos + 1))
        | none =>
          if hgvsp_str.startsWith "p." then shorten_hgvsp hgvsp_str
          else hgvsp_str
      | none => ""
    (hgvsc, hgvsp, hgvsp_short)
  | none => ("", "", "")

/-! ## Concrete inputs used by witnesses and counterexamples -/

/-- A baseline passing variant call (mirrors the source tests' fixture):
filters `["PASS"]`, depth 50, first VAF 0.05, no annotations. -/
def vBase : VariantPosition :=
  { chromosome := "chr1"
    start := 100
    end_pos := 100
    reference_allele := "A"
    alternate_allele := "T"
    variant_type := "SNV"
    filters := ["PASS"]
    total_depth := some 50
    variant_frequencies := some [mkRat 1 20]
    transcripts := []
    clinvar := []
    cosmic := []
    population_frequencies := []
    primate_ai_3d := none
    primate_ai := none
    dann_score := none
    revel_score := none
    dbsnp_ids := [] }

/-- The baseline variant with the total read depth absent. -/
def vNoDepth : VariantPosition := { vBase with total_depth := none }

/-- The baseline variant with sufficient depth but no variant frequencies. -/
def vNoVaf : VariantPosition := { vBase with variant_frequencies := none }

/-- The baseline variant with REVEL 0.8 and DANN 0.97 set (two non-primary
signals passing the default thresholds, primary absent). -/
def vTwoScores : VariantPosition :=
  { vBase with revel_score := some (mkRat 8 10)
               dann_score := some (mkRat 97 100) }

/-- The baseline variant with only REVEL 0.8 set. -/
def vOneScore : VariantPosition := { vBase with revel_score := some (mkRat 8 10) }

/-- The baseline variant with a gnomAD-exome East-Asian AF of 0.02 (above the
default maximum of 0.01). -/
def vGnomadHigh : VariantPosition :=
  { vBase with population_frequencies :=
      [{ source := "gnomad-exome", all_af := some (mkRat 3 100)
         eas_af := some (mkRat 2 100), afr_af := none, amr_af := none
         eur_af := none }] }

/-- A ClinVar verdict that is simultaneously pathogenic and benign. -/
def cvPathAndBenign : ClinVarAssessment :=
  { is_pathogenic := true
    is_likely_pathogenic := false
    is_benign := true
    is_likely_benign := false
    selected_entry := none
    confidence_level := "high"
    reason := "ClinVar pathogenic" }

/-- A benign-only ClinVar verdict. -/
def cvBenignOnly : ClinVarAssessment :=
  { is_pathogenic := false
    is_likely_pathogenic := false
    is_benign := true
    is_likely_benign := false
    selected_entry := none
    confidence_level := "medium"
    reason := "ClinVar benign" }

/-- An empty predictive verdict. -/
def pvEmpty : PredictiveAssessment :=
  { suggests_pathogenic := false
    contributing_scores := []
    confidence := 0
    support_count := 0
    has_primate_ai_support := false }

/-- A predictive verdict that suggests pathogenicity. -/
def pvSuggests : PredictiveAssessment :=
  { suggests_pathogenic := true
    contributing_scores := [("REVEL", mkRat 8 10), ("DANN", mkRat 97 100)]
    confidence := mkRat 6 10
    support_count := 2
    has_primate_ai_support := false }

/-- A pathogenic ClinVar submission reviewed by an expert panel (tier 2). -/
def ceExpert : ClinVarEntry :=
  { id := some "RCV000001"
    allele_id := none
    clinical_significance := ["Pathogenic"]
    review_status := some "reviewed by expert panel"
    phenotypes := ["Breast cancer"]
    last_evaluated := some "2020-01-01" }

/-- A pathogenic ClinVar submission from a single submitter (tier 5). -/
def ceSingle : ClinVarEntry :=
  { id := some "RCV000002"
    allele_id := none
    clinical_significance := ["Likely pathogenic"]
    review_status := some "criteria provided, single submitter"
    phenotypes := []
    last_evaluated := some "2023-05-01" }

/-- A transcript record carrying the BRAF V600E protein notation. -/
def trV600E : TranscriptAnnotation :=
  { id := some "NM_004333.4"
    source := some "RefSeq"
    hgnc := some "BRAF"
    consequence := ["missense_variant"]
    impact := some "MODERATE"
    amino_acids := some "V/E"
    cdna_pos := none
    cds_pos := none
    exons := some "15/18"
    codons := none
    protein_pos := some "600"
    hgvsc := some "NM_004333.4:c.1799T>A"
    hgvsp := some "NP_004324.2:p.Val600Glu"
    is_canonical := some true
    is_mane_select := some true }

/-- A small non-zero statistics tally used in examples. -/
def fsA : FilterStats :=
  { passed_quality := 3, failed_depth := 1, failed_vaf := 2, failed_af := 0
    clinvar_pathogenic := 1, clinvar_likely := 0, predictive_likely := 1
    primate_ai_only := 0, multi_score := 1, excluded_benign := 0
    included := 2, excluded := 4 }

/-! ## Helper lemmas -/

/-- A failing population-frequency verdict always carries a reason and a
passing one never does. -/
lemma pop_reason_none_iff (v : VariantPosition) (cfg : FilterConfig) :
    (check_population_frequency v cfg).2.1 = none ↔
      (check_population_frequency v cfg).1 = true := by
  unfold check_population_frequency
  rcases extract_gnomad_exome_eas_af v with _ | g
  · rcases extract_onekg_eas_af v with _ | k
    · simp
    · by_cases h : k > cfg.max_eas_af <;> simp [h]
  · by_cases h : g > cfg.max_eas_af <;> simp [h]

/-- `map_variant_classification` returns the label of the first matching
term, or the empty string when no term matches. -/
lemma map_variant_classification_eq_findSome (cs : List String) :
    map_variant_classification cs = (cs.findSome? termClassification).getD "" := by
  induction cs with
  | nil => rfl
  | cons c rest ih =>
    cases h : termClassification c <;>
      simp [map_variant_classification, List.findSome?_cons, h, ih]

/-! ## Claim theorems -/

/-- Claim C1: whenever the ClinVar verdict has `is_pathogenic = true`, the
decision fuser with `exclude_benign = true` includes the variant as
`Pathogenic` with primary evidence `ClinVar`, for every predictive verdict
and regardless of the benign flags. -/
theorem C1_pathogenic_overrides_benign (v : VariantPosition)
    (c : ClinVarAssessment) (p : PredictiveAssessment)
    (h : c.is_pathogenic = true) :
    (make_filter_decision_with_config v c p true).should_include = true ∧
    (make_filter_decision_with_config v c p true).pathogenicity_class
      = "Pathogenic" ∧
    (make_filter_decision_with_config v c p true).primary_evidence
      = "ClinVar" := by
  simp [make_filter_decision_with_config, h]

/-- Claim C1 witness: a verdict that is both pathogenic and benign, with a
predictive verdict that also suggests pathogenicity. -/
theorem C1_witness :
    cvPathAndBenign.is_pathogenic = true ∧
    (make_filter_decision_with_config vBase cvPathAndBenign pvSuggests
      true).should_include = true ∧
    (make_filter_decision_with_config vBase cvPathAndBenign pvSuggests
      true).pathogenicity_class = "Pathogenic" ∧
    (make_filter_decision_with_config vBase cvPathAndBenign pvSuggests
      true).primary_evidence = "ClinVar" :=
  ⟨rfl, C1_pathogenic_overrides_benign vBase cvPathAndBenign pvSuggests rfl⟩

/-- Claim C4: for a benign-only ClinVar verdict, `exclude_benign = true`
excludes the variant as `Excluded (Benign)` with evidence `ClinVar` even when
the predictive verdict suggests pathogenicity, while `exclude_benign = false`
together with a non-suggesting predictive verdict excludes it as `Excluded`
with evidence `None`. -/
theorem C4_benign_gating (v : VariantPosition) (c : ClinVarAssessment)
    (p q : PredictiveAssessment)
    (hb : c.is_benign = true) (hp : c.is_pathogenic = false)
    (hlp : c.is_likely_pathogenic = false)
    (hq : q.suggests_pathogenic = false) :
    ((make_filter_decision_with_config v c p true).should_include = false ∧
     (make_filter_decision_with_config v c p true).pathogenicity_class
       = "Excluded (Benign)" ∧
     (make_filter_decision_with_config v c p true).primary_evidence
       = "ClinVar") ∧
    ((make_filter_decision_with_config v c q false).should_include = false ∧
     (make_filter_decision_with_config v c q false).pathogenicity_class
       = "Excluded" ∧
     (make_filter_decision_with_config v c q false).primary_evidence
       = "None") := by
  simp [make_filter_decision_with_config, hb, hp, hlp, hq]

/-- Claim C4 witness: the benign-only verdict against a suggesting and an
empty predictive verdict. -/
theorem C4_witness :
    ((make_filter_decision_with_config vBase cvBenignOnly pvSuggests
       true).should_include = false ∧
     (make_filter_decision_with_config vBase cvBenignOnly pvSuggests
       true).pathogenicity_class = "Excluded (Benign)" ∧
     (make_filter_decision_with_config vBase cvBenignOnly pvSuggests
       true).primary_evidence = "ClinVar") ∧
    ((make_filter_decision_with_config vBase cvBenignOnly pvEmpty
       false).should_include = false ∧
     (make_filter_decision_with_config vBase cvBenignOnly pvEmpty
       false).pathogenicity_class = "Excluded" ∧
     (make_filter_decision_with_config vBase cvBenignOnly pvEmpty
       false).primary_evidence = "None") :=
  C4_benign_gating vBase cvBenignOnly pvSuggests pvEmpty rfl rfl rfl rfl

/-- Claim C7: consequence classification is first-match in list order: the
result is the label of the first term matching a substring rule;
`["synonymous_variant", "missense_variant"]` maps to `"Silent"` (not the more
severe missense label), and a list with no matching term maps to `""`. -/
theorem C7_consequence_first_match :
    (∀ cs : List String, map_variant_classification cs
        = (cs.findSome? termClassification).getD "") ∧
    map_variant_classification ["synonymous_variant", "missense_variant"]
      = "Silent" ∧
    (∀ cs : List String, cs.findSome? termClassification = none →
      map_variant_classification cs = "") := by
  refine ⟨map_variant_classification_eq_findSome, by decide, ?_⟩
  intro cs h
  rw [map_variant_classification_eq_findSome, h]
  rfl

/-- Claim C7 witness: a term matching no rule yields the empty string. -/
theorem C7_witness :
    map_variant_classification ["regulatory_region_variant"] = "" :=
  C7_consequence_first_match.2.2 ["regulatory_region_variant"] (by decide)

/-- Claim C8: protein-notation shortening on the documented cases: the
accession prefix is stripped at `:p.`, three-letter residue codes become
single letters, and `Ter` becomes `*`. -/
theorem C8_protein_shortening :
    ( extract_hgvs_notation (some trV600E)).2.2 = "p.V600E" ∧
    shorten_hgvsp "p.Arg132His" = "p.R132H" ∧
    shorten_hgvsp "p.Gln61Ter" = "p.Q61*" := by
  refine ⟨by decide, by decide, by decide⟩

/-- Claim C9: `FilterStats::merge` is commutative and associative with the
all-zero default tally as identity, so per-worker partial tallies can be
combined in any order. -/
theorem C9_stats_merge_monoid :
    (∀ a b : FilterStats, FilterStats.merge a b = FilterStats.merge b a) ∧
    (∀ a b c : FilterStats,
      FilterStats.merge (FilterStats.merge a b) c
        = FilterStats.merge a (FilterStats.merge b c)) ∧
    (∀ a : FilterStats, FilterStats.merge a FilterStats.default = a) ∧
    (∀ a : FilterStats, FilterStats.merge FilterStats.default a = a) := by
  refine ⟨?_, ?_, ?_, ?_⟩
  · intro a b
    cases a; cases b
    simp only [FilterStats.merge, FilterStats.mk.injEq]
    omega
  · intro a b c
    cases a; cases b; cases c
    simp only [FilterStats.merge, FilterStats.mk.injEq]
    omega
  · intro a
    cases a
    simp only [FilterStats.merge, FilterStats.default, FilterStats.mk.injEq]
    omega
  · intro a
    cases a
    simp only [FilterStats.merge, FilterStats.default, FilterStats.mk.injEq]
    omega

/-- Claim C10: a quality verdict passes exactly when it carries no failure
reason: every failing branch records a reason and the passing branch records
none. -/
theorem C10_passes_iff_no_reason (v : VariantPosition) (cfg : FilterConfig) :
    (apply_quality_filters v cfg).passes_quality = true ↔
      (apply_quality_filters v cfg).failure_reason = none := by
  unfold apply_quality_filters
  split
  · simp
  · split
    · simp
    · by_cases h : (check_population_frequency v cfg).1 = true
      · simp [h, pop_reason_none_iff v cfg |>.mpr h]
      · have h' : (check_population_frequency v cfg).1 = false :=
          Bool.not_eq_true _ |>.mp h
        have hr : ¬ (check_population_frequency v cfg).2.1 = none := by
          intro hn
          rw [(pop_reason_none_iff v cfg).mp hn] at h'
          cases h'
        simp [h', hr]

/-- Claim C2 counterexample: a call with filters exactly `["PASS"]` and the
total depth absent — and likewise one with sufficient depth but no VAF —
comes out of `apply_quality_filters` with `passes_quality = true`, not
`false` as the claim states: the `?` operator makes
`check_sequencing_quality` return `None` on a missing value, which the
caller's `if let Some((false, _))` does not treat as a failure. -/
theorem C2_counterexample :
    (apply_quality_filters vNoDepth FilterConfig.default).passes_quality
      = true ∧
    (apply_quality_filters vNoVaf FilterConfig.default).passes_quality
      = true := by
  refine ⟨by decide, by decide⟩

/-- Claim C2 (amended): for a call with filters exactly `["PASS"]`, if the
total depth is absent, or the depth is present and not below the minimum but
the first VAF is absent, the sequencing-quality check is skipped entirely and
the verdict (pass flag and failure reason) is exactly that of the
population-frequency check — in particular `passed = true` when no
population source has data. -/
theorem C2_absent_depth_or_vaf_skips_check (v : VariantPosition)
    (cfg : FilterConfig) (hf : v.filters = ["PASS"])
    (h : v.total_depth = none ∨
      ∃ d, v.total_depth = some d ∧ ¬ d < cfg.min_total_depth ∧
        get_variant_frequency v = none) :
    (apply_quality_filters v cfg).passes_quality
      = (check_population_frequency v cfg).1 ∧
    (apply_quality_filters v cfg).failure_reason
      = (check_population_frequency v cfg).2.1 := by
  have hseq : check_sequencing_quality v cfg = none := by
    rcases h with h | ⟨d, hd, hlt, hvaf⟩
    · simp [check_sequencing_quality, h]
    · simp [check_sequencing_quality, hd, hlt, hvaf]
  by_cases hp : (check_population_frequency v cfg).1 = true
  · simp [apply_quality_filters, hf, hseq, hp,
      (pop_reason_none_iff v cfg).mpr hp]
  · have hp' : (check_population_frequency v cfg).1 = false :=
      Bool.not_eq_true _ |>.mp hp
    simp [apply_quality_filters, hf, hseq, hp']

/-- Claim C2 witness (for the amended statement): the depth-absent variant
under the default configuration. -/
theorem C2_witness :
    (apply_quality_filters vNoDepth FilterConfig.default).passes_quality
      = (check_population_frequency vNoDepth FilterConfig.default).1 ∧
    (apply_quality_filters vNoDepth FilterConfig.default).failure_reason
      = (check_population_frequency vNoDepth FilterConfig.default).2.1 :=
  C2_absent_depth_or_vaf_skips_check vNoDepth FilterConfig.default rfl
    (Or.inl rfl)

/-- Claim C6: once the filter-flag, depth and VAF checks pass, the
population-frequency policy is: a gnomAD-exome East-Asian AF, when present,
alone decides the verdict (fail exactly when it exceeds the maximum, the
1000G fallback is never consulted); otherwise a 1000G value decides the same
way; with neither present the call passes and records no frequency. -/
theorem C6_population_frequency_policy (v : VariantPosition)
    (cfg : FilterConfig) (hf : v.filters = ["PASS"])
    (d : Int) (hd : v.total_depth = some d) (hdm : cfg.min_total_depth ≤ d)
    (f : ℚ) (hv : get_variant_frequency v = some f)
    (hvm : cfg.min_variant_frequency ≤ f) :
    (∀ g, extract_gnomad_exome_eas_af v = some g →
      ((apply_quality_filters v cfg).passes_quality = true ↔
        g ≤ cfg.max_eas_af) ∧
      (apply_quality_filters v cfg).eas_allele_frequency = some g) ∧
    (extract_gnomad_exome_eas_af v = none →
      ∀ k, extract_onekg_eas_af v = some k →
      ((apply_quality_filters v cfg).passes_quality = true ↔
        k ≤ cfg.max_eas_af) ∧
      (apply_quality_filters v cfg).eas_allele_frequency = some k) ∧
    (extract_gnomad_exome_eas_af v = none → extract_onekg_eas_af v = none →
      (apply_quality_filters v cfg).passes_quality = true ∧
      (apply_quality_filters v cfg).eas_allele_frequency = none) := by
  have hseq : check_sequencing_quality v cfg = some (true, "") := by
    simp [check_sequencing_quality, hd, hv, not_lt.mpr hdm, not_lt.mpr hvm]
  refine ⟨?_, ?_, ?_⟩
  · intro g hg
    by_cases hgt : g > cfg.max_eas_af
    · simp [apply_quality_filters, hf, hseq, check_population_frequency, hg,
        hgt, not_le.mpr hgt]
    · simp [apply_quality_filters, hf, hseq, check_population_frequency, hg,
        hgt, not_lt.mp hgt]
  · intro hg k hk
    by_cases hgt : k > cfg.max_eas_af
    · simp [apply_quality_filters, hf, hseq, check_population_frequency, hg,
        hk, hgt, not_le.mpr hgt]
    · simp [apply_quality_filters, hf, hseq, check_population_frequency, hg,
        hk, hgt, not_lt.mp hgt]
  · intro hg hk
    simp [apply_quality_filters, hf, hseq, check_population_frequency, hg, hk]

/-- Claim C6 witness: a passing call whose gnomAD-exome East-Asian AF of 0.02
exceeds the default maximum of 0.01. -/
theorem C6_witness :
    ((apply_quality_filters vGnomadHigh FilterConfig.default).passes_quality
        = true ↔ mkRat 2 100 ≤ FilterConfig.default.max_eas_af) ∧
    (apply_quality_filters vGnomadHigh
      FilterConfig.default).eas_allele_frequency = some (mkRat 2 100) :=
  (C6_population_frequency_policy vGnomadHigh FilterConfig.default rfl
      50 rfl (by decide) (mkRat 1 20) (by decide) (by decide)).1
    (mkRat 2 100) (by decide)

/-- The REVEL key differs from the PrimateAI-3D key. -/
lemma beq_revel_primate : (("REVEL" : String) == "PrimateAI-3D") = false := by
  decide

/-- The DANN key differs from the PrimateAI-3D key. -/
lemma beq_dann_primate : (("DANN" : String) == "PrimateAI-3D") = false := by
  decide

/-- The COSMIC key differs from the PrimateAI-3D key. -/
lemma beq_cosmic_primate : (("COSMIC" : String) == "PrimateAI-3D") = false := by
  decide

/-- `calculate_confidence` ignores its contributing-scores argument. -/
lemma calculate_confidence_ignores (c c' : List (String × ℚ))
    (has_primate_ai : Bool) (support_count : Nat) :
    calculate_confidence c has_primate_ai support_count
      = calculate_confidence c' has_primate_ai support_count := rfl

/-- The primate block bumps the count exactly when the primary signal
passes. -/
lemma primateStep_count (v : VariantPosition) (cfg : FilterConfig)
    (acc : List (String × ℚ) × Nat) :
    (primateStep v cfg acc).2
      = acc.2 + (if primaryPasses v cfg then 1 else 0) := by
  unfold primateStep primaryPasses
  rcases get_primate_ai_score v with _ | s
  · simp
  · by_cases h : s ≥ cfg.min_primate_ai_score <;> simp [h]

/-- The REVEL block bumps the count exactly when REVEL passes. -/
lemma revelStep_count (v : VariantPosition) (cfg : FilterConfig)
    (acc : List (String × ℚ) × Nat) :
    (revelStep v cfg acc).2
      = acc.2 + (if revelPasses v cfg then 1 else 0) := by
  unfold revelStep revelPasses
  rcases get_revel_score v with _ | s
  · simp
  · by_cases h : s ≥ cfg.min_revel_score <;> simp [h]

/-- The DANN block bumps the count exactly when DANN passes. -/
lemma dannStep_count (v : VariantPosition) (cfg : FilterConfig)
    (acc : List (String × ℚ) × Nat) :
    (dannStep v cfg acc).2
      = acc.2 + (if dannPasses v cfg then 1 else 0) := by
  unfold dannStep dannPasses
  rcases get_dann_score v with _ | s
  · simp
  · by_cases h : s ≥ cfg.min_dann_score <;> simp [h]

/-- The COSMIC block bumps the count exactly on catalog presence. -/
lemma cosmicStep_count (v : VariantPosition)
    (acc : List (String × ℚ) × Nat) :
    (cosmicStep v acc).2
      = acc.2 + (if is_in_cosmic v then 1 else 0) := by
  unfold cosmicStep
  by_cases h : is_in_cosmic v <;> simp [h]

/-- The primate block adds the PrimateAI-3D key exactly when the primary
signal passes. -/
lemma primateStep_key (v : VariantPosition) (cfg : FilterConfig)
    (acc : List (String × ℚ) × Nat) :
    containsKey (primateStep v cfg acc).1 "PrimateAI-3D"
      = (containsKey acc.1 "PrimateAI-3D" || primaryPasses v cfg) := by
  unfold primateStep primaryPasses
  rcases get_primate_ai_score v with _ | s
  · simp
  · by_cases h : s ≥ cfg.min_primate_ai_score <;> simp [h, containsKey]

/-- The REVEL block never adds the PrimateAI-3D key. -/
lemma revelStep_key (v : VariantPosition) (cfg : FilterConfig)
    (acc : List (String × ℚ) × Nat) :
    containsKey (revelStep v cfg acc).1 "PrimateAI-3D"
      = containsKey acc.1 "PrimateAI-3D" := by
  unfold revelStep
  rcases get_revel_score v with _ | s
  · simp
  · by_cases h : s ≥ cfg.min_revel_score <;>
      simp [h, containsKey, beq_revel_primate]

/-- The DANN block never adds the PrimateAI-3D key. -/
lemma dannStep_key (v : VariantPosition) (cfg : FilterConfig)
    (acc : List (String × ℚ) × Nat) :
    containsKey (dannStep v cfg acc).1 "PrimateAI-3D"
      = containsKey acc.1 "PrimateAI-3D" := by
  unfold dannStep
  rcases get_dann_score v with _ | s
  · simp
  · by_cases h : s ≥ cfg.min_dann_score <;>
      simp [h, containsKey, beq_dann_primate]

/-- The COSMIC block never adds the PrimateAI-3D key. -/
lemma cosmicStep_key (v : VariantPosition)
    (acc : List (String × ℚ) × Nat) :
    containsKey (cosmicStep v acc).1 "PrimateAI-3D"
      = containsKey acc.1 "PrimateAI-3D" := by
  unfold cosmicStep
  by_cases h : is_in_cosmic v <;>
    simp [h, containsKey, beq_cosmic_primate]

/-- Evaluation of `assess_predictive_scores`: the support count is the number
of passing signals, the PrimateAI flag records exactly whether the primary
signal passed, the fusion flag is primary-or-two-signals, and the confidence
comes from `calculate_confidence` at those values (its contributing-scores
argument is unused by the source). -/
lemma assess_fields (v : VariantPosition) (cfg : FilterConfig) :
    (assess_predictive_scores v cfg).support_count = supportCount v cfg ∧
    (assess_predictive_scores v cfg).has_primate_ai_support
      = primaryPasses v cfg ∧
    (assess_predictive_scores v cfg).suggests_pathogenic
      = (primaryPasses v cfg || decide (supportCount v cfg ≥ 2)) ∧
    (assess_predictive_scores v cfg).confidence
      = calculate_confidence [] (primaryPasses v cfg) (supportCount v cfg) := by
  have hcount :
      (cosmicStep v (dannStep v cfg (revelStep v cfg
        (primateStep v cfg ([], 0))))).2 = supportCount v cfg := by
    rw [cosmicStep_count, dannStep_count, revelStep_count, primateStep_count]
    unfold supportCount nonPrimaryCount
    ring
  have hkey :
      containsKey (cosmicStep v (dannStep v cfg (revelStep v cfg
        (primateStep v cfg ([], 0))))).1 "PrimateAI-3D"
        = primaryPasses v cfg := by
    rw [cosmicStep_key, dannStep_key, revelStep_key, primateStep_key]
    simp [containsKey]
  refine ⟨?_, ?_, ?_, ?_⟩
  · simp only [assess_predictive_scores]
    exact hcount
  · simp only [assess_predictive_scores]
    exact hkey
  · simp only [assess_predictive_scores]
    rw [hkey, hcount]
  · simp only [assess_predictive_scores]
    rw [hkey, hcount, calculate_confidence_ignores _ []]

/-- `mkRat` as a division of casts, for numeric normalisation. -/
lemma mkRat_q (n : Int) (d : Nat) : mkRat n d = (n : ℚ) / (d : ℚ) := by
  rw [Rat.mkRat_eq_divInt, Rat.divInt_eq_div]
  norm_num

/-- Claim C5: the predictive scorer's support count equals the number of
passing signals among the four (primary PrimateAI with 3-D preferred, REVEL,
DANN, COSMIC presence); with the primary signal not passing, exactly one
passing non-primary signal gives support 1 and no pathogenicity suggestion,
exactly two give support 2, a suggestion, and confidence 0.6; and in general
confidence is base (0.7 with primary support, else 0.5) plus 0.1 per support
beyond the first, capped at 1.0, and 0.0 at support 0. -/
theorem C5_predictive_fusion (v : VariantPosition) (cfg : FilterConfig) :
    (assess_predictive_scores v cfg).support_count = supportCount v cfg ∧
    (primaryPasses v cfg = false → nonPrimaryCount v cfg = 1 →
      (assess_predictive_scores v cfg).support_count = 1 ∧
      (assess_predictive_scores v cfg).suggests_pathogenic = false) ∧
    (primaryPasses v cfg = false → nonPrimaryCount v cfg = 2 →
      (assess_predictive_scores v cfg).support_count = 2 ∧
      (assess_predictive_scores v cfg).suggests_pathogenic = true ∧
      (assess_predictive_scores v cfg).confidence = mkRat 6 10) ∧
    ((assess_predictive_scores v cfg).confidence =
      if (assess_predictive_scores v cfg).support_count = 0 then 0
      else
        min ((if (assess_predictive_scores v cfg).has_primate_ai_support
              then mkRat 7 10 else mkRat 1 2)
          + (((assess_predictive_scores v cfg).support_count - 1 : Nat) : ℚ)
            * mkRat 1 10) 1) := by
  obtain ⟨h1, h2, h3, h4⟩ := assess_fields v cfg
  refine ⟨h1, ?_, ?_, ?_⟩
  · intro hp hn
    have hsc : supportCount v cfg = 1 := by simp [supportCount, hp, hn]
    exact ⟨by rw [h1, hsc], by rw [h3, hp, hsc]; decide⟩
  · intro hp hn
    have hsc : supportCount v cfg = 2 := by simp [supportCount, hp, hn]
    refine ⟨by rw [h1, hsc], by rw [h3, hp, hsc]; decide, ?_⟩
    rw [h4, hp, hsc]
    simp only [calculate_confidence, mkRat_q]
    norm_num [min_def]
  · rw [h4, h1, h2]
    unfold calculate_confidence
    rfl

/-- Claim C5 witness: REVEL 0.8 and DANN 0.97 under the default thresholds,
primary signal absent. -/
theorem C5_witness :
    (assess_predictive_scores vTwoScores
      FilterConfig.default).support_count = 2 ∧
    (assess_predictive_scores vTwoScores
      FilterConfig.default).suggests_pathogenic = true ∧
    (assess_predictive_scores vTwoScores
      FilterConfig.default).confidence = mkRat 6 10 :=
  (C5_predictive_fusion vTwoScores FilterConfig.default).2.2.1
    (by decide) (by decide)

/-- If the comparator does not place `a` strictly above `b`, then `a`'s
review-status tier is at most `b`'s (the tier is the comparator's first,
dominating key). -/
lemma cmp_entries_le_prio {a b : ClinVarEntry}
    (h : cmp_entries a b ≠ Ordering.gt) :
    entry_priority a ≤ entry_priority b := by
  unfold cmp_entries intCmp at h
  by_cases hp : entry_priority a = entry_priority b
  · exact le_of_eq hp
  · simp only [hp, ne_eq, not_false_eq_true, if_true] at h
    split_ifs at h with h1 h2
    · exact le_of_lt h1
    · exact absurd rfl h
    · omega

/-- If the comparator places `a` strictly above `b`, then `b`'s review-status
tier is at most `a`'s. -/
lemma cmp_entries_gt_prio {a b : ClinVarEntry}
    (h : cmp_entries a b = Ordering.gt) :
    entry_priority b ≤ entry_priority a := by
  unfold cmp_entries intCmp at h
  by_cases hp : entry_priority a = entry_priority b
  · exact le_of_eq hp.symm
  · simp only [hp, ne_eq, not_false_eq_true, if_true] at h
    rcases lt_trichotomy (entry_priority a) (entry_priority b) with h1 | h1 | h1
    · rw [if_pos h1] at h
      exact absurd h (by simp)
    · exact absurd h1 hp
    · exact le_of_lt h1

/-- Inserting preserves length. -/
lemma length_orderedInsertE (a : ClinVarEntry) (l : List ClinVarEntry) :
    (orderedInsertE a l).length = l.length + 1 := by
  induction l with
  | nil => rfl
  | cons b t ih =>
    unfold orderedInsertE
    split_ifs <;> simp [ih]

/-- Sorting preserves length. -/
lemma length_sortEntries (l : List ClinVarEntry) :
    (sortEntries l).length = l.length := by
  induction l with
  | nil => rfl
  | cons a t ih =>
    show (orderedInsertE a (sortEntries t)).length = t.length + 1
    rw [length_orderedInsertE, ih]

/-- The head of an insertion is the inserted element or the previous head,
and its tier is at most both. -/
lemma head_orderedInsertE (a : ClinVarEntry) (l : List ClinVarEntry) :
    ∃ h t, orderedInsertE a l = h :: t ∧
      entry_priority h ≤ entry_priority a ∧
      ∀ b bt, l = b :: bt → entry_priority h ≤ entry_priority b := by
  cases l with
  | nil =>
    exact ⟨a, [], rfl, le_refl _, fun b bt hbt => nomatch hbt⟩
  | cons b t =>
    have hins : orderedInsertE a (b :: t)
        = if cmp_entries a b ≠ Ordering.gt then a :: b :: t
          else b :: orderedInsertE a t := rfl
    by_cases hc : cmp_entries a b ≠ Ordering.gt
    · refine ⟨a, b :: t, ?_, le_refl _, ?_⟩
      · rw [hins, if_pos hc]
      · intro b' bt' hbt
        cases hbt
        exact cmp_entries_le_prio hc
    · have hc' : cmp_entries a b = Ordering.gt := not_not.mp hc
      refine ⟨b, orderedInsertE a t, ?_, cmp_entries_gt_prio hc', ?_⟩
      · rw [hins, if_neg hc]
      · intro b' bt' hbt
        cases hbt
        exact le_refl _

/-- The head of the sorted list minimises the review-status tier over the
whole input list. -/
lemma sortEntries_head_min (l : List ClinVarEntry) (s : ClinVarEntry)
    (hs : (sortEntries l).head? = some s) :
    ∀ x ∈ l, entry_priority s ≤ entry_priority x := by
  induction l generalizing s with
  | nil => simp [sortEntries] at hs
  | cons a t ih =>
    intro x hx
    have hsort : sortEntries (a :: t) = orderedInsertE a (sortEntries t) := rfl
    obtain ⟨h, ht, heq, hha, hhb⟩ := head_orderedInsertE a (sortEntries t)
    rw [hsort, heq] at hs
    simp only [List.head?_cons, Option.some.injEq] at hs
    subst hs
    rcases List.mem_cons.mp hx with hxa | hxt
    · subst hxa
      exact hha
    · cases hslt : sortEntries t with
      | nil =>
        have : t.length = 0 := by
          rw [← length_sortEntries, hslt]
          rfl
        have ht0 : t = [] := List.length_eq_zero.mp this
        subst ht0
        simp at hxt
      | cons b bt =>
        have h1 : entry_priority h ≤ entry_priority b := hhb b bt hslt
        have h2 : entry_priority b ≤ entry_priority x := by
          refine ih b ?_ x hxt
          rw [hslt]
          rfl
        exact le_trans h1 h2

/-- Claim C3: among pathogenic-compatible submissions, an expert-panel entry
(tier 2) is selected over a single-submitter entry (tier 5) in either input
order; in general the entry selected by `resolve_conflicting_entries`
minimises the review-status tier over the list. -/
theorem C3_conflict_resolution :
    (∀ e1 e2 : ClinVarEntry,
      is_pathogenic_entry e1 = true → is_pathogenic_entry e2 = true →
      strContains (strToLower (e1.review_status.getD ""))
        "reviewed by expert panel" = true →
      strContains (strToLower (e2.review_status.getD ""))
        "single submitter" = true →
      entry_priority e1 = 2 → entry_priority e2 = 5 →
      resolve_conflicting_entries [e1, e2] = some e1 ∧
      resolve_conflicting_entries [e2, e1] = some e1) ∧
    (∀ (l : List ClinVarEntry) (s : ClinVarEntry),
      resolve_conflicting_entries l = some s →
      ∀ x ∈ l, entry_priority s ≤ entry_priority x) := by
  constructor
  · intro e1 e2 _ _ _ _ hp1 hp2
    have hc12 : cmp_entries e1 e2 = Ordering.lt := by
      unfold cmp_entries intCmp
      rw [hp1, hp2]
      norm_num
    have hc21 : cmp_entries e2 e1 = Ordering.gt := by
      unfold cmp_entries intCmp
      rw [hp1, hp2]
      norm_num
    constructor
    · have hr : resolve_conflicting_entries [e1, e2]
          = (orderedInsertE e1 [e2]).head? := by
        unfold resolve_conflicting_entries
        rw [if_neg (by simp)]
        rfl
      have hins : orderedInsertE e1 [e2]
          = if cmp_entries e1 e2 ≠ Ordering.gt then e1 :: [e2]
            else e2 :: orderedInsertE e1 [] := rfl
      rw [hr, hins, if_pos (by rw [hc12]; simp)]
      rfl
    · have hr : resolve_conflicting_entries [e2, e1]
          = (orderedInsertE e2 [e1]).head? := by
        unfold resolve_conflicting_entries
        rw [if_neg (by simp)]
        rfl
      have hins : orderedInsertE e2 [e1]
          = if cmp_entries e2 e1 ≠ Ordering.gt then e2 :: [e1]
            else e1 :: orderedInsertE e2 [] := rfl
      rw [hr, hins, if_neg (by rw [hc21]; simp)]
      rfl
  · intro l s hs x hx
    unfold resolve_conflicting_entries at hs
    split_ifs at hs with hlen
    · obtain ⟨a, rfl⟩ := List.length_eq_one.mp hlen
      simp only [List.head?_cons, Option.some.injEq] at hs
      subst hs
      rcases List.mem_singleton.mp hx with rfl
      exact le_refl _
    · exact sortEntries_head_min l s hs x hx

/-- Claim C3 witness: a tier-2 expert-panel pathogenic entry against a
tier-5 single-submitter likely-pathogenic entry, in both orders. -/
theorem C3_witness :
    resolve_conflicting_entries [ceExpert, ceSingle] = some ceExpert ∧
    resolve_conflicting_entries [ceSingle, ceExpert] = some ceExpert :=
  C3_conflict_resolution.1 ceExpert ceSingle (by decide) (by decide)
    (by decide) (by decide) (by decide) (by decide)
